import Mathlib

/-!
Shallow embedding of `src/EasyClangComplete.py` (EasyClangComplete, the
event-dispatch shim of a Sublime Text completion plugin).

The file under verification is host-lifecycle glue: it reconciles
asynchronous completion results against a tracked job id
(`completion_finished`), gates completion queries (`on_query_completions`)
and tears down per-view configuration (`on_close` / `config_removed`).

Collaborator modules (`plugin/tools.py`, `plugin/view_config.py`, ...) are
not part of the sources; where the glue code only passes their values
around they are modelled as opaque data, and where the spec describes their
behaviour the definition's doc comment says so.

Python's `concurrent.futures.Future` is modelled by a three-state type with
the documented standard-library semantics: `done()` is true when the future
was cancelled or finished running (a done-callback only ever sees such
futures), and `result()` raises `CancelledError` when the future was
cancelled.
-/

namespace ECC

/-- A completion item. The glue code never inspects items, it only moves
lists of them around, so items are opaque strings here. -/
abbrev Completion := String

/-- Opaque handle for a collaborator completer object
(`view_config.completer`). The glue code only checks its presence and hands
it to the thread pool. -/
abbrev Completer := Nat

/-- A view (editor buffer). `id` models `view.buffer_id()`; `isValid`
models the collaborator predicate `Tools.is_valid_view(view)`, which the
glue code treats as an opaque boolean per view. -/
structure View where
  id : Nat
  isValid : Bool
deriving DecidableEq, Repr

/-- The correlation identifier of a completion query. Modelled from the
spec: `tools.CompletionRequest.get_identifier` (in `plugin/tools.py`, not
among the sources) returns an opaque token generated from
(view identity, trigger position); the token is only ever compared for
equality, so the pair itself serves as the token. -/
abbrev JobId := Nat × Int

/-- Modelled from the spec: `tools.CompletionRequest` (in
`plugin/tools.py`, not among the sources) "identifies a pending completion
query by (view identity, trigger offset)". -/
structure CompletionRequest where
  viewId : Nat
  triggerPos : Int
deriving DecidableEq, Repr

/-- Modelled from the spec: the opaque correlation identifier generated
from (view, position). -/
def CompletionRequest.get_identifier (r : CompletionRequest) : JobId :=
  (r.viewId, r.triggerPos)

/-- Modelled from the spec: `is_suitable_for_view(view)` is "a predicate
confirming a completion result still matches the currently focused view";
the result still applies exactly when the request originated from the view
that is active now. -/
def CompletionRequest.is_suitable_for_view (r : CompletionRequest)
    (v : View) : Bool :=
  r.viewId == v.id

/-- Exceptions the glue code can let escape (the futures machinery or the
host catches them outside the file under verification). `invalidState`
stands for the blocking behaviour of `result()` on a pending future, which
the code never reaches (every call site guards with `done()`). -/
inductive PyError where
  | cancelledError
  | attributeError
  | invalidState
deriving DecidableEq, Repr

/-- `concurrent.futures.Future`, as the Python standard library specifies
it: a future is pending, cancelled, or finished with a value. -/
inductive Future (α : Type) where
  | pending
  | cancelled
  | finished (value : α)
deriving DecidableEq, Repr

/-- `Future.done()`: "Return True if the call was successfully cancelled
or finished running" (Python standard library). In particular a cancelled
future IS done. -/
def Future.done : Future α → Bool
  | .pending => false
  | .cancelled => true
  | .finished _ => true

/-- `Future.cancelled()`: true exactly for a cancelled future. -/
def Future.wasCancelled : Future α → Bool
  | .cancelled => true
  | _ => false

/-- `Future.result()`: the finished value, or `CancelledError` raised when
the future was cancelled. On a pending future the real call blocks until
the future is done; the code under verification only calls `result()`
behind a `done()` guard, so that case is unreachable and mapped to an
error value. -/
def Future.result : Future α → Except PyError α
  | .pending => .error .invalidState
  | .cancelled => .error .cancelledError
  | .finished a => .ok a

/-- The listener's mutable completion state: `EasyClangComplete`'s
class attributes `current_job_id` (initially `None`, hence `Option`) and
`current_completions` (initially `[]`). -/
structure PluginState where
  current_job_id : Option JobId
  current_completions : List Completion
deriving DecidableEq, Repr

/-- Observable outcome of one run of the `completion_finished` callback:
the exception it raised if any, the listener state it leaves behind, and
whether it called `SublBridge.show_auto_complete` (the popup
re-invocation). -/
structure FinishOutcome where
  raised : Option PyError
  state : PluginState
  popup : Bool
deriving DecidableEq, Repr

/-- `EasyClangComplete.completion_finished(self, future)`
(src/EasyClangComplete.py lines 179-204), with the implicit inputs made
explicit: `st` is `self`'s completion state and `activeView` is
`sublime.active_window().active_view()`.

```
if not future.done():
    return
(completion_request, completions) = future.result()
if not completion_request:
    return
if completion_request.get_identifier() != self.current_job_id:
    return
active_view = sublime.active_window().active_view()
if completion_request.is_suitable_for_view(active_view):
    self.current_completions = completions
else:
    self.current_completions = []
if self.current_completions:
    SublBridge.show_auto_complete(active_view)
```

`future.result()` raising (CancelledError on a cancelled future, which is
`done`) propagates out of the callback, recorded in `raised`. -/
def completion_finished (st : PluginState) (activeView : View)
    (future : Future (Option CompletionRequest × List Completion)) :
    FinishOutcome :=
  if !future.done then
    ⟨none, st, false⟩
  else
    match future.result with
    | .error e => ⟨some e, st, false⟩
    | .ok (completion_request?, completions) =>
      match completion_request? with
      | none => ⟨none, st, false⟩
      | some completion_request =>
        if some completion_request.get_identifier ≠ st.current_job_id then
          ⟨none, st, false⟩
        else
          let st' : PluginState :=
            if completion_request.is_suitable_for_view activeView then
              { st with current_completions := completions }
            else
              { st with current_completions := [] }
          ⟨none, st', !st'.current_completions.isEmpty⟩

/-- `tools.PosStatus`, the trigger classification of a query position
(collaborator enumeration; the glue code compares against
`WRONG_TRIGGER` and `COMPLETION_NOT_NEEDED` and treats any other value as
"completion needed"). -/
inductive PosStatus where
  | WRONG_TRIGGER
  | COMPLETION_NOT_NEEDED
  | COMPLETION_NEEDED
deriving DecidableEq, Repr

/-- The slice of the settings object the glue code reads on the
completion-query path (`settings.hide_default_completions`). -/
structure Settings where
  hide_default_completions : Bool
deriving DecidableEq, Repr

/-- A cached view configuration (`view_config_manager.get_from_cache`):
the glue code only reads its `completer` attribute, which may be absent
(`None`). -/
structure ViewConfig where
  completer : Option Completer
deriving DecidableEq, Repr

/-- The value `on_query_completions` returns to the host:
`Tools.SHOW_DEFAULT_COMPLETIONS`, `Tools.HIDE_DEFAULT_COMPLETIONS`, or
`SublBridge.format_completions(completions, hide_default_completions)`
(the collaborator formatter kept opaque as its argument pair). -/
inductive QueryResponse where
  | showDefault
  | hideDefault
  | completions (items : List Completion) (hideDefaultFlag : Bool)
deriving DecidableEq, Repr

/-- A background completion task handed to the thread pool:
`thread_pool.submit(view_config.completer.complete, completion_request)`. -/
structure SubmittedTask where
  completer : Completer
  request : CompletionRequest
deriving DecidableEq, Repr

/-- Equality of `Except` values is decidable when it is on both sides. -/
instance {ε α : Type} [DecidableEq ε] [DecidableEq α] :
    DecidableEq (Except ε α) := fun a b =>
  match a, b with
  | .error e₁, .error e₂ =>
    if h : e₁ = e₂ then .isTrue (by rw [h]) else .isFalse (by simp [h])
  | .error _, .ok _ => .isFalse (by simp)
  | .ok _, .error _ => .isFalse (by simp)
  | .ok a₁, .ok a₂ =>
    if h : a₁ = a₂ then .isTrue (by rw [h]) else .isFalse (by simp [h])

/-- Observable outcome of one run of `on_query_completions`: the response
returned to the host (or the exception raised), the listener state left
behind, and the background task submitted, if any. -/
structure QueryOutcome where
  response : Except PyError QueryResponse
  state : PluginState
  submitted : Option SubmittedTask
deriving DecidableEq, Repr

/-- `EasyClangComplete.on_query_completions(self, view, prefix, locations)`
(src/EasyClangComplete.py lines 206-270), with the implicit inputs made
explicit: `st` is `self`'s completion state, `prefLen` is `len(prefix)`,
`loc0` is `locations[0]` (the host always supplies at least one cursor
position), `settings` is what `settings_manager.settings_for_view(view)`
returns, `cachedConfig` is what `view_config_manager.get_from_cache(view)`
returns, and `pos_status` is the classification
`Tools.get_pos_status(trigger_pos, view, settings)` would compute for this
query (the collaborator classifier kept opaque: the value is an input).

```
if not Tools.is_valid_view(view):
    return Tools.SHOW_DEFAULT_COMPLETIONS
trigger_pos = locations[0] - len(prefix)
completion_request = tools.CompletionRequest(view, trigger_pos)
current_pos_id = completion_request.get_identifier()
settings = self.settings_manager.settings_for_view(view)
view_config = self.view_config_manager.get_from_cache(view)
if not view_config:
    return Tools.SHOW_DEFAULT_COMPLETIONS
if self.current_completions and current_pos_id == self.current_job_id:
    return SublBridge.format_completions(
        self.current_completions, settings.hide_default_completions)
pos_status = Tools.get_pos_status(trigger_pos, view, settings)
if pos_status == PosStatus.WRONG_TRIGGER:
    return Tools.HIDE_DEFAULT_COMPLETIONS
if pos_status == PosStatus.COMPLETION_NOT_NEEDED:
    if settings.hide_default_completions:
        return Tools.HIDE_DEFAULT_COMPLETIONS
    return Tools.SHOW_DEFAULT_COMPLETIONS
self.current_job_id = current_pos_id
future = EasyClangComplete.thread_pool.submit(
    view_config.completer.complete, completion_request)
future.add_done_callback(self.completion_finished)
if settings.hide_default_completions:
    return Tools.HIDE_DEFAULT_COMPLETIONS
return Tools.SHOW_DEFAULT_COMPLETIONS
```

Note the dispatch path: `self.current_job_id = current_pos_id` executes
before `view_config.completer.complete` is evaluated, so when `completer`
is `None` the attribute access raises `AttributeError` with the job id
already overwritten and no task submitted. -/
def on_query_completions (st : PluginState) (view : View) (prefLen : Nat)
    (loc0 : Int) (settings : Settings) (cachedConfig : Option ViewConfig)
    (pos_status : PosStatus) : QueryOutcome :=
  if !view.isValid then
    ⟨.ok .showDefault, st, none⟩
  else
    let trigger_pos : Int := loc0 - (prefLen : Int)
    let completion_request : CompletionRequest := ⟨view.id, trigger_pos⟩
    let current_pos_id : JobId := completion_request.get_identifier
    match cachedConfig with
    | none => ⟨.ok .showDefault, st, none⟩
    | some view_config =>
      if st.current_completions ≠ [] ∧ some current_pos_id = st.current_job_id then
        ⟨.ok (.completions st.current_completions settings.hide_default_completions),
         st, none⟩
      else if pos_status = PosStatus.WRONG_TRIGGER then
        ⟨.ok .hideDefault, st, none⟩
      else if pos_status = PosStatus.COMPLETION_NOT_NEEDED then
        if settings.hide_default_completions then
          ⟨.ok .hideDefault, st, none⟩
        else
          ⟨.ok .showDefault, st, none⟩
      else
        let st' : PluginState := { st with current_job_id := some current_pos_id }
        match view_config.completer with
        | none => ⟨.error .attributeError, st', none⟩
        | some completer =>
          ⟨if settings.hide_default_completions then .ok .hideDefault
           else .ok .showDefault,
           st', some ⟨completer, completion_request⟩⟩

/-- `EasyClangComplete.on_selection_modified(self, view)`
(src/EasyClangComplete.py lines 108-121): returns whether
`view_config.completer.error_vis.show_popup_if_needed(view, row)` was
dispatched. Every guard failure is a silent early return.

```
if Tools.is_valid_view(view):
    (row, _) = SublBridge.cursor_pos(view)
    view_config = self.view_config_manager.get_from_cache(view)
    if not view_config:
        return
    if not view_config.completer:
        return
    view_config.completer.error_vis.show_popup_if_needed(view, row)
``` -/
def on_selection_modified (view : View) (cachedConfig : Option ViewConfig) :
    Bool :=
  if view.isValid then
    match cachedConfig with
    | none => false
    | some view_config =>
      match view_config.completer with
      | none => false
      | some _ => true
  else
    false

/-- Observable outcome of one run of `on_close`: whether the per-view
settings were cleared, and the view ids of the asynchronous config-removal
tasks submitted to the thread pool. -/
structure CloseOutcome where
  settingsCleared : Bool
  submittedRemovals : List Nat
deriving DecidableEq, Repr

/-- `EasyClangComplete.on_close(self, view)`
(src/EasyClangComplete.py lines 150-163):

```
if Tools.is_valid_view(view):
    self.settings_manager.clear_for_view(view)
    file_path = view.buffer_id()
    future = EasyClangComplete.thread_pool.submit(
        self.view_config_manager.clear_for_view, file_path)
    future.add_done_callback(EasyClangComplete.config_removed)
```

One `submit` call per valid-view close event; none for an invalid view. -/
def on_close (view : View) : CloseOutcome :=
  if view.isValid then
    ⟨true, [view.id]⟩
  else
    ⟨false, []⟩

/-- What `config_removed` logs: the removed view id (" removed config for
id: %s") or the cancellation notice (" could not remove config ->
cancelled"). -/
inductive RemoveLog where
  | removedConfig (id : Nat)
  | couldNotRemove
deriving DecidableEq, Repr

/-- `EasyClangComplete.config_removed(future)`
(src/EasyClangComplete.py lines 165-177): the done callback attached to the
config-removal future; returns the log entry written, or the exception
raised.

```
if future.done():
    log.debug(" removed config for id: %s", future.result())
elif future.cancelled():
    log.debug(" could not remove config -> cancelled")
```

`future.result()` is evaluated inside the first branch; on a cancelled
future `done()` is true (Python semantics), so that branch is taken and
`result()` raises `CancelledError`, while the `cancelled()` branch is
unreachable. -/
def config_removed (future : Future Nat) : Except PyError (Option RemoveLog) :=
  if future.done then
    match future.result with
    | .error e => .error e
    | .ok removedId => .ok (some (.removedConfig removedId))
  else if future.wasCancelled then
    .ok (some .couldNotRemove)
  else
    .ok none

/-! ## Claims -/

/-- Claim C1: a resolved completion future's carried completions are stored
as `current_completions` (and thus applied to the UI via the popup) only if
the originating request's identifier equals the tracked `current_job_id`
and the request is still suitable for the now-active view; in particular a
request whose identifier no longer matches (its job id was overwritten by a
newer request) is discarded with the state untouched and no popup. -/
theorem C1_stale_result_never_applied (st : PluginState) (v : View)
    (req : CompletionRequest) (comps : List Completion) :
    (some req.get_identifier ≠ st.current_job_id →
      completion_finished st v (.finished (some req, comps)) = ⟨none, st, false⟩)
    ∧ ((completion_finished st v (.finished (some req, comps))).popup = true →
        some req.get_identifier = st.current_job_id ∧
        req.is_suitable_for_view v = true)
    ∧ (comps ≠ [] → comps ≠ st.current_completions →
        (completion_finished st v
            (.finished (some req, comps))).state.current_completions = comps →
        some req.get_identifier = st.current_job_id ∧
        req.is_suitable_for_view v = true) := by
  by_cases hid : some req.get_identifier = st.current_job_id
  · by_cases hsuit : req.is_suitable_for_view v = true
    · simp [completion_finished, Future.done, Future.result, hid, hsuit]
    · simp [completion_finished, Future.done, Future.result, hid, hsuit]
      intro h1 h2 h3
      simp_all
  · simp [completion_finished, Future.done, Future.result, hid]
    intro h1 h2 h3
    simp_all

/-- Witness for C1: the state tracks job id (1, 0); a resolved future for
the superseded request (2, 0) is discarded without touching the state. -/
theorem C1_witness :
    completion_finished ⟨some (1, 0), []⟩ ⟨1, true⟩
        (.finished (some ⟨2, 0⟩, ["a"])) = ⟨none, ⟨some (1, 0), []⟩, false⟩ :=
  (C1_stale_result_never_applied ⟨some (1, 0), []⟩ ⟨1, true⟩ ⟨2, 0⟩ ["a"]).1
    (by decide)

/-- Claim C2: a resolved future whose request identifier matches
`current_job_id` but whose request is no longer suitable for the now-active
view has its result discarded — `current_completions` is overwritten with
the empty list, nothing is raised, and the popup is not triggered —
regardless of the job-id match. -/
theorem C2_unsuitable_result_discarded (st : PluginState) (v : View)
    (req : CompletionRequest) (comps : List Completion)
    (hid : st.current_job_id = some req.get_identifier)
    (hsuit : req.is_suitable_for_view v = false) :
    completion_finished st v (.finished (some req, comps)) =
      ⟨none, { st with current_completions := [] }, false⟩ := by
  simp [completion_finished, Future.done, Future.result, hid, hsuit]

/-- Witness for C2: request (5, 3) matches the tracked job id but
originated from view 5 while view 9 is active; its non-empty result is
discarded and no popup fires. -/
theorem C2_witness :
    completion_finished ⟨some (5, 3), ["old"]⟩ ⟨9, true⟩
        (.finished (some ⟨5, 3⟩, ["x"])) = ⟨none, ⟨some (5, 3), []⟩, false⟩ :=
  C2_unsuitable_result_discarded ⟨some (5, 3), ["old"]⟩ ⟨9, true⟩ ⟨5, 3⟩ ["x"]
    (by decide) (by decide)

/-- Counterexample for C3 as stated: with a valid view, a cached view
config, non-empty `current_completions` and a request identifier equal to
`current_job_id`, a query whose position classifies as `WRONG_TRIGGER`
returns the formatted cached completions, not the hide-default-completions
response: the cached-completions fast path runs before the trigger
classification is consulted. -/
theorem C3_counterexample_cached_fast_path :
    (on_query_completions ⟨some (7, 2), ["a"]⟩ ⟨7, true⟩ 1 3 ⟨false⟩
        (some ⟨some 0⟩) .WRONG_TRIGGER).response
      = .ok (.completions ["a"] false)
    ∧ (on_query_completions ⟨some (7, 2), ["a"]⟩ ⟨7, true⟩ 1 3 ⟨false⟩
        (some ⟨some 0⟩) .WRONG_TRIGGER).response ≠ .ok .hideDefault := by
  decide

/-- Claim C3 (amended): for every valid view with a cached view config,
whenever the cached-completions fast path does not apply
(`current_completions` is empty or the request identifier differs from
`current_job_id`) and the query position classifies as `WRONG_TRIGGER`,
`on_query_completions` returns the hide-default-completions response,
independent of the `hide_default_completions` setting (the `settings`
argument is arbitrary), leaving the state untouched and submitting no
task. -/
theorem C3_wrong_trigger_hides_defaults (st : PluginState) (view : View)
    (prefLen : Nat) (loc0 : Int) (settings : Settings) (config : ViewConfig)
    (hvalid : view.isValid = true)
    (hmiss : st.current_completions = [] ∨
      some ((view.id, loc0 - (prefLen : Int)) : JobId) ≠ st.current_job_id) :
    on_query_completions st view prefLen loc0 settings (some config)
        .WRONG_TRIGGER = ⟨.ok .hideDefault, st, none⟩ := by
  rcases hmiss with h | h
  · simp [on_query_completions, CompletionRequest.get_identifier, hvalid, h]
  · simp [on_query_completions, CompletionRequest.get_identifier, hvalid, h]

/-- Witness for C3: with no cached completions, `WRONG_TRIGGER` yields
hide-default both when `hide_default_completions` is false and when it is
true. -/
theorem C3_witness :
    on_query_completions ⟨none, []⟩ ⟨7, true⟩ 1 3 ⟨false⟩ (some ⟨some 0⟩)
        .WRONG_TRIGGER = ⟨.ok .hideDefault, ⟨none, []⟩, none⟩
    ∧ on_query_completions ⟨none, []⟩ ⟨7, true⟩ 1 3 ⟨true⟩ (some ⟨some 0⟩)
        .WRONG_TRIGGER = ⟨.ok .hideDefault, ⟨none, []⟩, none⟩ :=
  ⟨C3_wrong_trigger_hides_defaults _ _ _ _ _ _ (by decide) (by decide),
   C3_wrong_trigger_hides_defaults _ _ _ _ _ _ (by decide) (by decide)⟩

/-- Claim C4: for every valid view with a cached view config and no
matching cached completions, a query whose position classifies as
`COMPLETION_NOT_NEEDED` returns the hide-default-completions response if
and only if `hide_default_completions` is true, and the
show-default-completions response otherwise; the state is untouched and no
task is submitted. -/
theorem C4_not_needed_defers_to_setting (st : PluginState) (view : View)
    (prefLen : Nat) (loc0 : Int) (settings : Settings) (config : ViewConfig)
    (hvalid : view.isValid = true)
    (hmiss : st.current_completions = [] ∨
      some ((view.id, loc0 - (prefLen : Int)) : JobId) ≠ st.current_job_id) :
    on_query_completions st view prefLen loc0 settings (some config)
        .COMPLETION_NOT_NEEDED =
      ⟨.ok (if settings.hide_default_completions then .hideDefault
            else .showDefault), st, none⟩ := by
  rcases hmiss with h | h
  · by_cases hh : settings.hide_default_completions <;>
      simp [on_query_completions, CompletionRequest.get_identifier, hvalid, h, hh]
  · by_cases hh : settings.hide_default_completions <;>
      simp [on_query_completions, CompletionRequest.get_identifier, hvalid, h, hh]

/-- Witness for C4: `COMPLETION_NOT_NEEDED` hides the defaults when the
setting is true and shows them when it is false. -/
theorem C4_witness :
    on_query_completions ⟨none, []⟩ ⟨7, true⟩ 1 3 ⟨true⟩ (some ⟨some 0⟩)
        .COMPLETION_NOT_NEEDED = ⟨.ok .hideDefault, ⟨none, []⟩, none⟩
    ∧ on_query_completions ⟨none, []⟩ ⟨7, true⟩ 1 3 ⟨false⟩ (some ⟨some 0⟩)
        .COMPLETION_NOT_NEEDED = ⟨.ok .showDefault, ⟨none, []⟩, none⟩ :=
  ⟨C4_not_needed_defers_to_setting _ _ _ _ _ _ (by decide) (by decide),
   C4_not_needed_defers_to_setting _ _ _ _ _ _ (by decide) (by decide)⟩

/-- Claim C5: for a resolved, still-valid completion request (identifier
matches `current_job_id` and the request is suitable for the active view),
the delivered completions are stored and the popup re-invocation is
requested if and only if the delivered list is non-empty. -/
theorem C5_popup_iff_nonempty (st : PluginState) (v : View)
    (req : CompletionRequest) (comps : List Completion)
    (hid : st.current_job_id = some req.get_identifier)
    (hsuit : req.is_suitable_for_view v = true) :
    completion_finished st v (.finished (some req, comps)) =
      ⟨none, { st with current_completions := comps }, !comps.isEmpty⟩
    ∧ ((completion_finished st v (.finished (some req, comps))).popup = true ↔
        comps ≠ []) := by
  constructor
  · simp [completion_finished, Future.done, Future.result, hid, hsuit]
  · simp [completion_finished, Future.done, Future.result, hid, hsuit]

/-- Witness for C5: a still-valid non-empty result triggers the popup; a
still-valid empty result is stored without triggering it. -/
theorem C5_witness :
    completion_finished ⟨some (4, 0), []⟩ ⟨4, true⟩
        (.finished (some ⟨4, 0⟩, ["x"])) = ⟨none, ⟨some (4, 0), ["x"]⟩, true⟩
    ∧ completion_finished ⟨some (4, 0), ["old"]⟩ ⟨4, true⟩
        (.finished (some ⟨4, 0⟩, [])) = ⟨none, ⟨some (4, 0), []⟩, false⟩ :=
  ⟨(C5_popup_iff_nonempty ⟨some (4, 0), []⟩ ⟨4, true⟩ ⟨4, 0⟩ ["x"]
      (by decide) (by decide)).1,
   (C5_popup_iff_nonempty ⟨some (4, 0), ["old"]⟩ ⟨4, true⟩ ⟨4, 0⟩ []
      (by decide) (by decide)).1⟩

/-- Claim C6, evaluated at the relevant inputs: a close event on a valid
view submits exactly one config-removal task (and none on an invalid
view); `config_removed` logs success for a finished future; but for a
CANCELLED future `done()` is true (Python futures semantics, last
conjunct), so `config_removed` takes the `done` branch, calls
`future.result()` and raises `CancelledError` instead of logging the
cancellation — the `cancelled()` branch is unreachable and the claim's
"never raises" fails. -/
theorem C6_close_teardown_evaluated :
    (on_close ⟨3, true⟩).submittedRemovals.length = 1
    ∧ on_close ⟨4, false⟩ = ⟨false, []⟩
    ∧ config_removed (.finished 7) = .ok (some (.removedConfig 7))
    ∧ config_removed .cancelled = .error .cancelledError
    ∧ (Future.cancelled : Future Nat).done = true := by
  decide

/-- Claim C7, evaluated at the failing input: a cancelled future IS done
(first conjunct, Python futures semantics), so the `done` guard in
`completion_finished` does not detect cancellation; reading the result of
a cancelled future raises `CancelledError` out of the callback (second
conjunct; the state is still unmutated and no popup fires). Only a pending
future takes the early return the claim describes (third conjunct). -/
theorem C7_cancelled_escapes_done_guard :
    (Future.cancelled : Future (Option CompletionRequest × List Completion)).done
      = true
    ∧ completion_finished ⟨some (1, 0), ["a"]⟩ ⟨1, true⟩ .cancelled
        = ⟨some .cancelledError, ⟨some (1, 0), ["a"]⟩, false⟩
    ∧ completion_finished ⟨some (1, 0), ["a"]⟩ ⟨1, true⟩ .pending
        = ⟨none, ⟨some (1, 0), ["a"]⟩, false⟩ := by
  decide

/-- Counterexample for C8 as stated: on a valid view with a cached view
config whose `completer` is absent, no cached completions and a position
classified as needing completion, `on_query_completions` does not return
silently: it raises `AttributeError` (the unguarded
`view_config.completer.complete` attribute access). -/
theorem C8_counterexample_attribute_error :
    (on_query_completions ⟨none, []⟩ ⟨3, true⟩ 0 5 ⟨false⟩ (some ⟨none⟩)
        .COMPLETION_NEEDED).response = .error .attributeError := by
  decide

/-- Claim C8 (amended): `on_selection_modified` returns silently without
dispatching when the cached config has no completer, but
`on_query_completions` performs no completer check: whenever the dispatch
path is reached (valid view, cached config, no cached-completions fast
path, position classified as needing completion) with an absent completer,
it overwrites `current_job_id` and then raises `AttributeError`; no
background task is submitted in either handler. -/
theorem C8_missing_completer_behaviour :
    (∀ v : View, v.isValid = true →
      on_selection_modified v (some ⟨none⟩) = false)
    ∧ (∀ (st : PluginState) (view : View) (prefLen : Nat) (loc0 : Int)
        (settings : Settings),
        view.isValid = true →
        (st.current_completions = [] ∨
          some ((view.id, loc0 - (prefLen : Int)) : JobId) ≠ st.current_job_id) →
        on_query_completions st view prefLen loc0 settings (some ⟨none⟩)
            .COMPLETION_NEEDED =
          ⟨.error .attributeError,
           { st with current_job_id := some (view.id, loc0 - (prefLen : Int)) },
           none⟩) := by
  constructor
  · intro v hv
    simp [on_selection_modified, hv]
  · intro st view prefLen loc0 settings hvalid hmiss
    rcases hmiss with h | h
    · simp [on_query_completions, CompletionRequest.get_identifier, hvalid, h]
    · simp [on_query_completions, CompletionRequest.get_identifier, hvalid, h]

/-- Witness for C8: a selection change with a completer-less cached config
dispatches nothing, and a completion query on the dispatch path with a
completer-less cached config raises `AttributeError` with the job id
already overwritten. -/
theorem C8_witness :
    on_selection_modified ⟨3, true⟩ (some ⟨none⟩) = false
    ∧ on_query_completions ⟨none, []⟩ ⟨3, true⟩ 0 5 ⟨false⟩ (some ⟨none⟩)
        .COMPLETION_NEEDED = ⟨.error .attributeError, ⟨some (3, 5), []⟩, none⟩ :=
  ⟨C8_missing_completer_behaviour.1 ⟨3, true⟩ (by decide),
   C8_missing_completer_behaviour.2 ⟨none, []⟩ ⟨3, true⟩ 0 5 ⟨false⟩
     (by decide) (by decide)⟩

/-- Claim C9: on a valid view with a cached view config, when
`current_completions` is non-empty and the new request's identifier equals
`current_job_id`, `on_query_completions` immediately returns the cached
completions formatted with the `hide_default_completions` setting, with
the state untouched and no background task submitted, for EVERY value of
the trigger classification (`ps` is arbitrary, so the classification is
never consulted). -/
theorem C9_cached_completions_fast_path (st : PluginState) (view : View)
    (prefLen : Nat) (loc0 : Int) (settings : Settings) (config : ViewConfig)
    (ps : PosStatus)
    (hvalid : view.isValid = true)
    (hne : st.current_completions ≠ [])
    (hid : st.current_job_id = some (view.id, loc0 - (prefLen : Int))) :
    on_query_completions st view prefLen loc0 settings (some config) ps =
      ⟨.ok (.completions st.current_completions
              settings.hide_default_completions),
       st, none⟩ := by
  simp [on_query_completions, CompletionRequest.get_identifier, hvalid, hne, hid]

/-- Witness for C9: the cached completions for job (7, 2) are returned
formatted, with no submission, even at a position classified as needing
completion. -/
theorem C9_witness :
    on_query_completions ⟨some (7, 2), ["a"]⟩ ⟨7, true⟩ 1 3 ⟨true⟩
        (some ⟨some 0⟩) .COMPLETION_NEEDED =
      ⟨.ok (.completions ["a"] true), ⟨some (7, 2), ["a"]⟩, none⟩ :=
  C9_cached_completions_fast_path ⟨some (7, 2), ["a"]⟩ ⟨7, true⟩ 1 3 ⟨true⟩
    ⟨some 0⟩ .COMPLETION_NEEDED (by decide) (by decide) (by decide)

/-- Claim C10: the discard paths of `completion_finished` differ in their
frame: a pending (not-done) future, an absent request or a job-id mismatch
return early with the whole state unchanged, whereas a suitability failure
overwrites `current_completions` with the empty list; in all four cases
`current_job_id` is unchanged and no popup fires. -/
theorem C10_discard_paths_frame (st : PluginState) (v : View) :
    (completion_finished st v .pending = ⟨none, st, false⟩)
    ∧ (∀ comps, completion_finished st v (.finished (none, comps)) =
        ⟨none, st, false⟩)
    ∧ (∀ req comps, some req.get_identifier ≠ st.current_job_id →
        completion_finished st v (.finished (some req, comps)) =
          ⟨none, st, false⟩)
    ∧ (∀ req comps, some req.get_identifier = st.current_job_id →
        req.is_suitable_for_view v = false →
        completion_finished st v (.finished (some req, comps)) =
          ⟨none, { st with current_completions := [] }, false⟩) := by
  refine ⟨?_, ?_, ?_, ?_⟩
  · simp [completion_finished, Future.done]
  · intro comps
    simp [completion_finished, Future.done, Future.result]
  · intro req comps hid
    simp [completion_finished, Future.done, Future.result, hid]
  · intro req comps hid hsuit
    simp [completion_finished, Future.done, Future.result, hid.symm, hsuit]

/-- Witness for C10: a pending future leaves the state alone; a matching
but unsuitable result wipes `current_completions` while `current_job_id`
stays (1, 2). -/
theorem C10_witness :
    completion_finished ⟨some (1, 2), ["a"]⟩ ⟨5, true⟩ .pending
      = ⟨none, ⟨some (1, 2), ["a"]⟩, false⟩
    ∧ completion_finished ⟨some (1, 2), ["a"]⟩ ⟨5, true⟩
        (.finished (some ⟨1, 2⟩, ["b"])) = ⟨none, ⟨some (1, 2), []⟩, false⟩ :=
  ⟨(C10_discard_paths_frame ⟨some (1, 2), ["a"]⟩ ⟨5, true⟩).1,
   (C10_discard_paths_frame ⟨some (1, 2), ["a"]⟩ ⟨5, true⟩).2.2.2 ⟨1, 2⟩ ["b"]
     (by decide) (by decide)⟩

end ECC
